import Mathlib

/-!
Verification of the Mergington High School activity-signup registry
(`src/app.py`): an in-memory mapping from activity name to activity record,
with operations to list activities, sign a student up, and unregister one.
The registry is embedded as an association list from names to records, and
the HTTP handlers as pure functions returning `Except` of an HTTP error.
-/

namespace Mergington

/-- An activity record, as stored in the in-memory activity database:
`description`, `schedule`, `max_participants`, `participants`. -/
structure Activity where
  description : String
  schedule : String
  max_participants : Nat
  participants : List String
deriving Repr, DecidableEq

/-- The registry is a finite mapping from activity name to record, kept as
an association list in seeding order (Python dicts preserve insertion order). -/
abbrev Registry := List (String × Activity)

/-- Dictionary lookup `activities[name]` / the `name in activities` test. -/
def lookupAct : Registry → String → Option Activity
  | [], _ => none
  | p :: rest, n => if p.1 = n then some p.2 else lookupAct rest n

/-- In-place mutation of the record stored under `n` (Python mutates the
dict entry; here the entry is replaced, all other entries kept in order). -/
def updateReg : Registry → String → Activity → Registry
  | [], _, _ => []
  | p :: rest, n, a => (if p.1 = n then (p.1, a) else p) :: updateReg rest n a

/-- Replace the `participants` field of a record, keeping the other fields. -/
def setParticipants (a : Activity) (l : List String) : Activity :=
  Activity.mk a.description a.schedule a.max_participants l

/-- A `fastapi.HTTPException`: status code plus human-readable detail. -/
structure HTTPError where
  status_code : Nat
  detail : String
deriving Repr, DecidableEq

/-- The seeded in-memory activity database of `src/app.py`. -/
def activities : Registry :=
  [ ("Chess Club", Activity.mk
      "Learn strategies and compete in chess tournaments"
      "Fridays, 3:30 PM - 5:00 PM" 12
      ["michael@mergington.edu", "daniel@mergington.edu"]),
    ("Programming Class", Activity.mk
      "Learn programming fundamentals and build software projects"
      "Tuesdays and Thursdays, 3:30 PM - 4:30 PM" 20
      ["emma@mergington.edu", "sophia@mergington.edu"]),
    ("Gym Class", Activity.mk
      "Physical education and sports activities"
      "Mondays, Wednesdays, Fridays, 2:00 PM - 3:00 PM" 30
      ["john@mergington.edu", "olivia@mergington.edu"]),
    ("Soccer Team", Activity.mk
      "Competitive soccer practices and matches"
      "Monday, Wednesday, Friday, 4:00 PM - 6:00 PM" 22
      ["liam@mergington.edu", "noah@mergington.edu"]),
    ("Basketball Club", Activity.mk
      "Pickup games, drills, and intramural tournaments"
      "Tuesdays and Thursdays, 5:00 PM - 7:00 PM" 18
      ["ava@mergington.edu", "isabella@mergington.edu"]),
    ("Art Club", Activity.mk
      "Explore visual arts: painting, drawing, and mixed media"
      "Wednesdays, 3:30 PM - 5:00 PM" 16
      ["mia@mergington.edu", "charlotte@mergington.edu"]),
    ("Drama Club", Activity.mk
      "Acting workshops, rehearsals, and school productions"
      "Thursdays, 4:00 PM - 6:30 PM" 25
      ["harper@mergington.edu", "amelia@mergington.edu"]),
    ("Debate Team", Activity.mk
      "Develop public speaking, research, and argumentation skills"
      "Mondays and Thursdays, 4:00 PM - 5:30 PM" 14
      ["elijah@mergington.edu", "lucas@mergington.edu"]),
    ("Science Club", Activity.mk
      "Hands-on experiments, STEM projects, and competitions"
      "Fridays, 3:30 PM - 5:00 PM" 20
      ["sophia.s@mergington.edu", "ethan@mergington.edu"]) ]

/-- `GET /activities`: returns the whole mapping, unconditionally. -/
def get_activities (reg : Registry) : Registry := reg

/-- `POST /activities/.../signup` (`signup_for_activity` in `src/app.py`):
404 if the activity name is absent; 400 if the email is already signed up;
400 if the activity is full; otherwise append the email and confirm. -/
def signup_for_activity (reg : Registry) (activity_name email : String) :
    Except HTTPError (Registry × String) :=
  match lookupAct reg activity_name with
  | none => Except.error (HTTPError.mk 404 "Activity not found")
  | some activity =>
    if email ∈ activity.participants then
      Except.error (HTTPError.mk 400 "Student already signed up for this activity")
    else if activity.participants.length ≥ activity.max_participants then
      Except.error (HTTPError.mk 400 "Activity is full")
    else
      Except.ok (updateReg reg activity_name
          (setParticipants activity (activity.participants ++ [email])),
        "Signed up " ++ email ++ " for " ++ activity_name)

/-- Modelled from the spec: `src/app.py` does not implement the
`DELETE /activities/.../unregister` endpoint — only its tests
(`TestUnregisterActivity` in `tests/test_app.py`) are in the repository.
Per the spec: fails with `NotFound` (404) if the activity name is absent;
fails with `NotFound` (404) if the email is not currently in `participants`;
on success removes the email from `participants` and returns a confirmation
(the tests expect the message to mention "Unregistered"). -/
def unregister_for_activity (reg : Registry) (activity_name email : String) :
    Except HTTPError (Registry × String) :=
  match lookupAct reg activity_name with
  | none => Except.error (HTTPError.mk 404 "Activity not found")
  | some activity =>
    if email ∈ activity.participants then
      Except.ok (updateReg reg activity_name
          (setParticipants activity (activity.participants.erase email)),
        "Unregistered " ++ email ++ " from " ++ activity_name)
    else
      Except.error (HTTPError.mk 404 "Participant not found")

/-- A client request that can mutate the registry. -/
inductive Op where
  | signup (activity_name email : String)
  | unregister (activity_name email : String)
deriving Repr, DecidableEq

/-- The registry after one request: on success the updated registry, on an
HTTP error the registry is untouched. -/
def applyOp (reg : Registry) : Op → Registry
  | Op.signup n e =>
    match signup_for_activity reg n e with
    | Except.ok (reg2, _) => reg2
    | Except.error _ => reg
  | Op.unregister n e =>
    match unregister_for_activity reg n e with
    | Except.ok (reg2, _) => reg2
    | Except.error _ => reg

/-- The registry after a sequence of requests. -/
def run (reg : Registry) (ops : List Op) : Registry := ops.foldl applyOp reg

/-- The roster invariant of a single activity: no duplicate email, and at
most `max_participants` entries. -/
def ActivityOK (a : Activity) : Prop :=
  a.participants.Nodup ∧ a.participants.length ≤ a.max_participants

instance decActivityOK (a : Activity) : Decidable (ActivityOK a) :=
  inferInstanceAs (Decidable (_ ∧ _))

/-- The roster invariant for every activity stored in the registry. -/
def RegistryOK (reg : Registry) : Prop := ∀ p ∈ reg, ActivityOK p.2

instance decRegistryOK (reg : Registry) : Decidable (RegistryOK reg) :=
  List.decidableBAll _ reg

/-- The seeded Chess Club record, spelled out for concrete instantiations. -/
def chessClub : Activity := Activity.mk
  "Learn strategies and compete in chess tournaments"
  "Fridays, 3:30 PM - 5:00 PM" 12
  ["michael@mergington.edu", "daniel@mergington.edu"]

/-- A two-seat activity that is both full and already contains `a@x.edu`,
used to exercise the duplicate-before-capacity check order. -/
def tinyClub : Activity := Activity.mk "d" "s" 2 ["a@x.edu", "b@x.edu"]

/-- A one-activity registry holding `tinyClub`. -/
def tinyReg : Registry := [("Tiny Club", tinyClub)]

/-- The registry after signing `x@mergington.edu` up for Chess Club. -/
def chessReg2 : Registry :=
  updateReg activities "Chess Club"
    (setParticipants chessClub (chessClub.participants ++ ["x@mergington.edu"]))

@[simp] theorem setParticipants_participants (a : Activity) (l : List String) :
    (setParticipants a l).participants = l := rfl

@[simp] theorem setParticipants_max (a : Activity) (l : List String) :
    (setParticipants a l).max_participants = a.max_participants := rfl

@[simp] theorem setParticipants_setParticipants (a : Activity) (l l2 : List String) :
    setParticipants (setParticipants a l) l2 = setParticipants a l2 := rfl

@[simp] theorem setParticipants_self (a : Activity) :
    setParticipants a a.participants = a := rfl

theorem lookupAct_mem {reg : Registry} {n : String} {a : Activity}
    (h : lookupAct reg n = some a) : (n, a) ∈ reg := by
  induction reg with
  | nil => simp [lookupAct] at h
  | cons p rest ih =>
    rw [lookupAct] at h
    split at h
    · next hp =>
      injection h with h2
      have hpa : p = (n, a) := by
        obtain ⟨pn, pa⟩ := p
        simp only [Prod.mk.injEq]
        exact ⟨hp, h2⟩
      rw [List.mem_cons]
      exact Or.inl hpa.symm
    · exact List.mem_cons_of_mem _ (ih h)

theorem lookupAct_updateReg_self {reg : Registry} {n : String} {a b : Activity}
    (h : lookupAct reg n = some a) :
    lookupAct (updateReg reg n b) n = some b := by
  induction reg with
  | nil => simp [lookupAct] at h
  | cons p rest ih =>
    rw [lookupAct] at h
    rw [updateReg]
    by_cases hp : p.1 = n
    · simp [lookupAct, hp]
    · rw [if_neg hp] at h
      simp only [if_neg hp, lookupAct, hp, if_false]
      exact ih h

theorem lookupAct_updateReg_ne {reg : Registry} {n n2 : String} {b : Activity}
    (h : n2 ≠ n) : lookupAct (updateReg reg n b) n2 = lookupAct reg n2 := by
  induction reg with
  | nil => rfl
  | cons p rest ih =>
    rw [updateReg, lookupAct, lookupAct]
    by_cases hp : p.1 = n
    · have hne : n ≠ n2 := fun h2 => h h2.symm
      simp [hp, hne, ih]
    · simp [hp, ih]

theorem updateReg_map_fst (reg : Registry) (n : String) (b : Activity) :
    (updateReg reg n b).map Prod.fst = reg.map Prod.fst := by
  induction reg with
  | nil => rfl
  | cons p rest ih =>
    rw [updateReg]
    by_cases hp : p.1 = n
    · simp [hp, ih]
    · simp [hp, ih]

theorem mem_updateReg {reg : Registry} {n : String} {b : Activity}
    {q : String × Activity} (hq : q ∈ updateReg reg n b) : q.2 = b ∨ q ∈ reg := by
  induction reg with
  | nil => cases hq
  | cons p rest ih =>
    rw [updateReg] at hq
    rcases List.mem_cons.mp hq with hq | hq
    · by_cases hp : p.1 = n
      · rw [if_pos hp] at hq; left; rw [hq]
      · rw [if_neg hp] at hq
        right
        exact List.mem_cons.mpr (Or.inl hq)
    · rcases ih hq with h2 | h2
      · exact Or.inl h2
      · exact Or.inr (List.mem_cons_of_mem _ h2)

theorem updateReg_OK {reg : Registry} {n : String} {b : Activity}
    (h : RegistryOK reg) (hb : ActivityOK b) : RegistryOK (updateReg reg n b) := by
  intro q hq
  rcases mem_updateReg hq with h2 | h2
  · rw [h2]; exact hb
  · exact h q h2

theorem signup_ok_of {reg : Registry} {n e : String} {a : Activity}
    (ha : lookupAct reg n = some a) (he : e ∉ a.participants)
    (hc : a.participants.length < a.max_participants) :
    signup_for_activity reg n e =
      Except.ok (updateReg reg n (setParticipants a (a.participants ++ [e])),
        "Signed up " ++ e ++ " for " ++ n) := by
  simp [signup_for_activity, ha, he, not_le.mpr hc]

theorem signup_notfound_of {reg : Registry} {n : String} (e : String)
    (h : lookupAct reg n = none) :
    signup_for_activity reg n e = Except.error (HTTPError.mk 404 "Activity not found") := by
  simp [signup_for_activity, h]

theorem signup_dup_of {reg : Registry} {n e : String} {a : Activity}
    (ha : lookupAct reg n = some a) (he : e ∈ a.participants) :
    signup_for_activity reg n e =
      Except.error (HTTPError.mk 400 "Student already signed up for this activity") := by
  simp [signup_for_activity, ha, he]

theorem signup_full_of {reg : Registry} {n e : String} {a : Activity}
    (ha : lookupAct reg n = some a) (he : e ∉ a.participants)
    (hc : a.max_participants ≤ a.participants.length) :
    signup_for_activity reg n e =
      Except.error (HTTPError.mk 400 "Activity is full") := by
  simp [signup_for_activity, ha, he, hc]

theorem signup_eq_ok {reg reg2 : Registry} {n e m : String}
    (h : signup_for_activity reg n e = Except.ok (reg2, m)) :
    ∃ a, lookupAct reg n = some a ∧ e ∉ a.participants ∧
      a.participants.length < a.max_participants ∧
      reg2 = updateReg reg n (setParticipants a (a.participants ++ [e])) ∧
      m = "Signed up " ++ e ++ " for " ++ n := by
  rcases hl : lookupAct reg n with _ | a
  · rw [signup_notfound_of e hl] at h
    cases h
  · by_cases h1 : e ∈ a.participants
    · rw [signup_dup_of hl h1] at h
      cases h
    · by_cases h2 : a.max_participants ≤ a.participants.length
      · rw [signup_full_of hl h1 h2] at h
        cases h
      · rw [signup_ok_of hl h1 (not_le.mp h2)] at h
        injection h with h3
        injection h3 with h4 h5
        exact ⟨a, rfl, h1, not_le.mp h2, h4.symm, h5.symm⟩

theorem unregister_ok_of {reg : Registry} {n e : String} {a : Activity}
    (ha : lookupAct reg n = some a) (he : e ∈ a.participants) :
    unregister_for_activity reg n e =
      Except.ok (updateReg reg n (setParticipants a (a.participants.erase e)),
        "Unregistered " ++ e ++ " from " ++ n) := by
  simp [unregister_for_activity, ha, he]

theorem unregister_notfound_of {reg : Registry} {n : String} (e : String)
    (h : lookupAct reg n = none) :
    unregister_for_activity reg n e =
      Except.error (HTTPError.mk 404 "Activity not found") := by
  simp [unregister_for_activity, h]

theorem unregister_nomember_of {reg : Registry} {n e : String} {a : Activity}
    (ha : lookupAct reg n = some a) (he : e ∉ a.participants) :
    unregister_for_activity reg n e =
      Except.error (HTTPError.mk 404 "Participant not found") := by
  simp [unregister_for_activity, ha, he]

theorem unregister_eq_ok {reg reg2 : Registry} {n e m : String}
    (h : unregister_for_activity reg n e = Except.ok (reg2, m)) :
    ∃ a, lookupAct reg n = some a ∧ e ∈ a.participants ∧
      reg2 = updateReg reg n (setParticipants a (a.participants.erase e)) ∧
      m = "Unregistered " ++ e ++ " from " ++ n := by
  rcases hl : lookupAct reg n with _ | a
  · rw [unregister_notfound_of e hl] at h
    cases h
  · by_cases h1 : e ∈ a.participants
    · rw [unregister_ok_of hl h1] at h
      injection h with h3
      injection h3 with h4 h5
      exact ⟨a, rfl, h1, h4.symm, h5.symm⟩
    · rw [unregister_nomember_of hl h1] at h
      cases h

theorem applyOp_signup_error {reg : Registry} {n e : String} {err : HTTPError}
    (h : signup_for_activity reg n e = Except.error err) :
    applyOp reg (Op.signup n e) = reg := by
  simp [applyOp, h]

theorem applyOp_unregister_error {reg : Registry} {n e : String} {err : HTTPError}
    (h : unregister_for_activity reg n e = Except.error err) :
    applyOp reg (Op.unregister n e) = reg := by
  simp [applyOp, h]

theorem applyOp_OK {reg : Registry} (h : RegistryOK reg) (op : Op) :
    RegistryOK (applyOp reg op) := by
  cases op with
  | signup n e =>
    rcases hs : signup_for_activity reg n e with err | ⟨reg2, m⟩
    · simp only [applyOp, hs]
      exact h
    · simp only [applyOp, hs]
      obtain ⟨a, ha, he, hc, hr, -⟩ := signup_eq_ok hs
      subst hr
      have haOK : ActivityOK a := h _ (lookupAct_mem ha)
      refine updateReg_OK h ⟨?_, ?_⟩
      · simp only [setParticipants_participants, List.nodup_append,
          List.nodup_singleton, true_and]
        exact ⟨haOK.1, by simp [List.disjoint_singleton, he]⟩
      · simp only [setParticipants_participants, setParticipants_max,
          List.length_append, List.length_singleton]
        omega
  | unregister n e =>
    rcases hs : unregister_for_activity reg n e with err | ⟨reg2, m⟩
    · simp only [applyOp, hs]
      exact h
    · simp only [applyOp, hs]
      obtain ⟨a, ha, he, hr, -⟩ := unregister_eq_ok hs
      subst hr
      have haOK : ActivityOK a := h _ (lookupAct_mem ha)
      refine updateReg_OK h ⟨haOK.1.erase e, ?_⟩
      simp only [setParticipants_participants, setParticipants_max]
      exact le_trans ((a.participants.erase_sublist e).length_le) haOK.2

theorem run_OK {reg : Registry} (h : RegistryOK reg) (ops : List Op) :
    RegistryOK (run reg ops) := by
  induction ops generalizing reg with
  | nil => exact h
  | cons op rest ih => exact ih (applyOp_OK h op)

theorem activities_OK : RegistryOK activities := by decide

/-- C1: for every activity stored in the registry, after every sequence of
signup/unregister requests starting from the seeded initial state, the
participants list has no duplicate email and its length is at most
`max_participants`. (The unregister operation is modelled from the spec,
as `src/app.py` does not implement it.) -/
theorem registry_invariant_all_runs (ops : List Op) (p : String × Activity)
    (hp : p ∈ run activities ops) :
    p.2.participants.Nodup ∧ p.2.participants.length ≤ p.2.max_participants :=
  run_OK activities_OK ops p hp

/-- Witness for C1 after a signup followed by an unregister. -/
theorem registry_invariant_all_runs_witness :
    (("Chess Club", Activity.mk "Learn strategies and compete in chess tournaments"
        "Fridays, 3:30 PM - 5:00 PM" 12
        ["michael@mergington.edu", "x@mergington.edu"]) ∈
      run activities [Op.signup "Chess Club" "x@mergington.edu",
        Op.unregister "Chess Club" "daniel@mergington.edu"]) ∧
    (["michael@mergington.edu", "x@mergington.edu"].Nodup ∧
      (["michael@mergington.edu", "x@mergington.edu"] : List String).length ≤ 12) :=
  ⟨by decide, registry_invariant_all_runs
    [Op.signup "Chess Club" "x@mergington.edu",
      Op.unregister "Chess Club" "daniel@mergington.edu"]
    ("Chess Club", Activity.mk "Learn strategies and compete in chess tournaments"
      "Fridays, 3:30 PM - 5:00 PM" 12
      ["michael@mergington.edu", "x@mergington.edu"])
    (by decide)⟩

/-- C2: when the activity exists, the email is not yet signed up and the
activity is not full, signup appends the email at the end of that activity's
participants (all other fields kept) and returns the confirmation message
`Signed up {email} for {activityName}`. -/
theorem signup_success_spec (reg : Registry) (n e : String) (a : Activity)
    (ha : lookupAct reg n = some a) (he : e ∉ a.participants)
    (hc : a.participants.length < a.max_participants) :
    ∃ reg2, signup_for_activity reg n e =
        Except.ok (reg2, "Signed up " ++ e ++ " for " ++ n) ∧
      reg2 = updateReg reg n (setParticipants a (a.participants ++ [e])) ∧
      lookupAct reg2 n = some (setParticipants a (a.participants ++ [e])) :=
  ⟨_, signup_ok_of ha he hc, rfl, lookupAct_updateReg_self ha⟩

/-- Witness for C2 at the seeded Chess Club. -/
theorem signup_success_spec_witness :
    ∃ reg2, signup_for_activity activities "Chess Club" "x@mergington.edu" =
        Except.ok (reg2, "Signed up " ++ "x@mergington.edu" ++ " for " ++ "Chess Club") ∧
      reg2 = updateReg activities "Chess Club"
        (setParticipants chessClub (chessClub.participants ++ ["x@mergington.edu"])) ∧
      lookupAct reg2 "Chess Club" =
        some (setParticipants chessClub (chessClub.participants ++ ["x@mergington.edu"])) :=
  signup_success_spec activities "Chess Club" "x@mergington.edu" chessClub
    (by decide) (by decide) (by decide)

/-- C3: the unregister operation (modelled from the spec; `src/app.py` does
not implement it, only its tests exist) fails with 404 when the activity
name is absent, fails with 404 when the email is not in the participants,
and otherwise removes the email from the participants and returns a
confirmation. -/
theorem unregister_spec (reg : Registry) (n e : String) :
    (lookupAct reg n = none →
      unregister_for_activity reg n e =
        Except.error (HTTPError.mk 404 "Activity not found")) ∧
    (∀ a, lookupAct reg n = some a → e ∉ a.participants →
      unregister_for_activity reg n e =
        Except.error (HTTPError.mk 404 "Participant not found")) ∧
    (∀ a, lookupAct reg n = some a → e ∈ a.participants →
      unregister_for_activity reg n e =
        Except.ok (updateReg reg n (setParticipants a (a.participants.erase e)),
          "Unregistered " ++ e ++ " from " ++ n) ∧
      lookupAct (updateReg reg n (setParticipants a (a.participants.erase e))) n =
        some (setParticipants a (a.participants.erase e))) :=
  ⟨fun h => unregister_notfound_of e h,
   fun _ ha he => unregister_nomember_of ha he,
   fun _ ha he => ⟨unregister_ok_of ha he, lookupAct_updateReg_self ha⟩⟩

/-- Witness for C3: all three branches at concrete inputs. -/
theorem unregister_spec_witness :
    unregister_for_activity activities "Nonexistent Activity" "test@mergington.edu" =
      Except.error (HTTPError.mk 404 "Activity not found") ∧
    unregister_for_activity activities "Chess Club" "notmember@mergington.edu" =
      Except.error (HTTPError.mk 404 "Participant not found") ∧
    unregister_for_activity activities "Chess Club" "michael@mergington.edu" =
      Except.ok (updateReg activities "Chess Club"
          (setParticipants chessClub (chessClub.participants.erase "michael@mergington.edu")),
        "Unregistered " ++ "michael@mergington.edu" ++ " from " ++ "Chess Club") :=
  ⟨(unregister_spec activities "Nonexistent Activity" "test@mergington.edu").1 (by decide),
   (unregister_spec activities "Chess Club" "notmember@mergington.edu").2.1
     chessClub (by decide) (by decide),
   ((unregister_spec activities "Chess Club" "michael@mergington.edu").2.2
     chessClub (by decide) (by decide)).1⟩

/-- C4: when the activity exists, signup fails with a 400 error if the email
is already signed up or if the roster already holds `max_participants`
entries, and in either failure case the registry is left unchanged. -/
theorem signup_conflict_spec (reg : Registry) (n e : String) (a : Activity)
    (ha : lookupAct reg n = some a)
    (h : e ∈ a.participants ∨ a.participants.length = a.max_participants) :
    (∃ d, signup_for_activity reg n e = Except.error (HTTPError.mk 400 d)) ∧
    applyOp reg (Op.signup n e) = reg := by
  by_cases he : e ∈ a.participants
  · have hs := signup_dup_of ha he
    exact ⟨⟨_, hs⟩, applyOp_signup_error hs⟩
  · have hc : a.max_participants ≤ a.participants.length := by
      rcases h with h | h
      · exact absurd h he
      · exact le_of_eq h.symm
    have hs := signup_full_of ha he hc
    exact ⟨⟨_, hs⟩, applyOp_signup_error hs⟩

/-- Witness for C4: a duplicate signup at the seeded Chess Club. -/
theorem signup_conflict_spec_witness :
    (∃ d, signup_for_activity activities "Chess Club" "michael@mergington.edu" =
      Except.error (HTTPError.mk 400 d)) ∧
    applyOp activities (Op.signup "Chess Club" "michael@mergington.edu") = activities :=
  signup_conflict_spec activities "Chess Club" "michael@mergington.edu" chessClub
    (by decide) (Or.inl (by decide))

/-- C5: signup fails with a 404 error exactly when the activity name is not
a key of the registry, and on that failure the registry is unchanged. -/
theorem signup_notfound_iff (reg : Registry) (n e : String) :
    ((∃ d, signup_for_activity reg n e = Except.error (HTTPError.mk 404 d)) ↔
      lookupAct reg n = none) ∧
    (lookupAct reg n = none → applyOp reg (Op.signup n e) = reg) := by
  constructor
  · constructor
    · rintro ⟨d, hd⟩
      rcases hl : lookupAct reg n with _ | a
      · rfl
      · exfalso
        by_cases h1 : e ∈ a.participants
        · rw [signup_dup_of hl h1] at hd
          simp at hd
        · by_cases h2 : a.max_participants ≤ a.participants.length
          · rw [signup_full_of hl h1 h2] at hd
            simp at hd
          · rw [signup_ok_of hl h1 (not_le.mp h2)] at hd
            cases hd
    · intro h
      exact ⟨_, signup_notfound_of e h⟩
  · intro h
    exact applyOp_signup_error (signup_notfound_of e h)

/-- Witness for C5 at an absent activity name. -/
theorem signup_notfound_iff_witness :
    (∃ d, signup_for_activity activities "Nonexistent Activity" "test@mergington.edu" =
      Except.error (HTTPError.mk 404 d)) ∧
    applyOp activities (Op.signup "Nonexistent Activity" "test@mergington.edu") = activities :=
  ⟨(signup_notfound_iff activities "Nonexistent Activity" "test@mergington.edu").1.mpr
      (by decide),
   (signup_notfound_iff activities "Nonexistent Activity" "test@mergington.edu").2
      (by decide)⟩

/-- C6: the signup checks run in the order existence, duplicate, capacity:
an absent activity name yields the 404 error whatever the email; a
duplicate email yields the duplicate 400 error even when the activity is
full; the capacity 400 error is reached only for a non-duplicate email. -/
theorem signup_check_order (reg : Registry) (n e : String) :
    (lookupAct reg n = none →
      signup_for_activity reg n e = Except.error (HTTPError.mk 404 "Activity not found")) ∧
    (∀ a, lookupAct reg n = some a → e ∈ a.participants →
      signup_for_activity reg n e =
        Except.error (HTTPError.mk 400 "Student already signed up for this activity")) ∧
    (∀ a, lookupAct reg n = some a → e ∉ a.participants →
      a.max_participants ≤ a.participants.length →
      signup_for_activity reg n e = Except.error (HTTPError.mk 400 "Activity is full")) :=
  ⟨fun h => signup_notfound_of e h,
   fun _ ha he => signup_dup_of ha he,
   fun _ ha he hc => signup_full_of ha he hc⟩

/-- Witness for C6: in a full two-seat activity already containing
`a@x.edu`, signing up `a@x.edu` again reports the duplicate error, not the
capacity error; the other two branches are also exercised. -/
theorem signup_check_order_witness :
    signup_for_activity tinyReg "Nope" "a@x.edu" =
      Except.error (HTTPError.mk 404 "Activity not found") ∧
    signup_for_activity tinyReg "Tiny Club" "a@x.edu" =
      Except.error (HTTPError.mk 400 "Student already signed up for this activity") ∧
    signup_for_activity tinyReg "Tiny Club" "c@x.edu" =
      Except.error (HTTPError.mk 400 "Activity is full") :=
  ⟨(signup_check_order tinyReg "Nope" "a@x.edu").1 (by decide),
   (signup_check_order tinyReg "Tiny Club" "a@x.edu").2.1 tinyClub (by decide) (by decide),
   (signup_check_order tinyReg "Tiny Club" "c@x.edu").2.2 tinyClub
     (by decide) (by decide) (by decide)⟩

/-- C7: `GET /activities` always succeeds and returns the registry mapping
unchanged; on the seeded state it returns exactly 9 activities, in seeding
order, each of which is a full record with the four fields (every
`Activity` value carries `description`, `schedule`, `max_participants`
and `participants`). -/
theorem get_activities_spec (reg : Registry) :
    get_activities reg = reg ∧
    (get_activities activities).length = 9 ∧
    (get_activities activities).map Prod.fst =
      ["Chess Club", "Programming Class", "Gym Class", "Soccer Team",
       "Basketball Club", "Art Club", "Drama Club", "Debate Team", "Science Club"] :=
  ⟨rfl, by decide, by decide⟩

/-- C8: when a first signup succeeds, doing signup, then unregister, then
signup again for the same (activity, email) pair succeeds at every step and
leaves the activity's roster equal to its state after the first signup.
(The unregister operation is modelled from the spec, as `src/app.py` does
not implement it.) -/
theorem signup_unregister_signup_roundtrip (reg : Registry) (n e : String) (a : Activity)
    (ha : lookupAct reg n = some a) (he : e ∉ a.participants)
    (hc : a.participants.length < a.max_participants) :
    ∃ reg1 m1 reg2 m2 reg3 m3,
      signup_for_activity reg n e = Except.ok (reg1, m1) ∧
      unregister_for_activity reg1 n e = Except.ok (reg2, m2) ∧
      signup_for_activity reg2 n e = Except.ok (reg3, m3) ∧
      lookupAct reg3 n = lookupAct reg1 n := by
  have h1 := signup_ok_of ha he hc
  have hl1 : lookupAct (updateReg reg n (setParticipants a (a.participants ++ [e]))) n =
      some (setParticipants a (a.participants ++ [e])) := lookupAct_updateReg_self ha
  have hmem : e ∈ (setParticipants a (a.participants ++ [e])).participants := by simp
  have h2 := unregister_ok_of hl1 hmem
  have herase : (a.participants ++ [e]).erase e = a.participants := by
    rw [List.erase_append_right _ he, List.erase_cons_head, List.append_nil]
  simp only [setParticipants_participants, setParticipants_setParticipants, herase,
    setParticipants_self] at h2
  have hl2 : lookupAct
      (updateReg (updateReg reg n (setParticipants a (a.participants ++ [e]))) n a) n =
      some a := lookupAct_updateReg_self hl1
  have h3 := signup_ok_of hl2 he hc
  have hl3 : lookupAct
      (updateReg (updateReg (updateReg reg n (setParticipants a (a.participants ++ [e])))
        n a) n (setParticipants a (a.participants ++ [e]))) n =
      some (setParticipants a (a.participants ++ [e])) := lookupAct_updateReg_self hl2
  refine ⟨_, _, _, _, _, _, h1, h2, h3, ?_⟩
  rw [hl3, hl1]

/-- Witness for C8 at the seeded Chess Club with a fresh email. -/
theorem signup_unregister_signup_roundtrip_witness :
    ∃ reg1 m1 reg2 m2 reg3 m3,
      signup_for_activity activities "Chess Club" "x@mergington.edu" =
        Except.ok (reg1, m1) ∧
      unregister_for_activity reg1 "Chess Club" "x@mergington.edu" =
        Except.ok (reg2, m2) ∧
      signup_for_activity reg2 "Chess Club" "x@mergington.edu" =
        Except.ok (reg3, m3) ∧
      lookupAct reg3 "Chess Club" = lookupAct reg1 "Chess Club" :=
  signup_unregister_signup_roundtrip activities "Chess Club" "x@mergington.edu"
    chessClub (by decide) (by decide) (by decide)

/-- C9: a successful signup changes only the named activity's participants:
the key sequence of the registry is unchanged, every other activity's
record is unchanged, and the named activity keeps its description, schedule
and `max_participants`, with only the email appended to its participants. -/
theorem signup_frame (reg reg2 : Registry) (n e m : String)
    (h : signup_for_activity reg n e = Except.ok (reg2, m)) :
    reg2.map Prod.fst = reg.map Prod.fst ∧
    (∀ n2, n2 ≠ n → lookupAct reg2 n2 = lookupAct reg n2) ∧
    ∃ a, lookupAct reg n = some a ∧
      lookupAct reg2 n = some (setParticipants a (a.participants ++ [e])) := by
  obtain ⟨a, ha, he, hc, hr, -⟩ := signup_eq_ok h
  subst hr
  exact ⟨updateReg_map_fst reg n _,
    fun n2 hn => lookupAct_updateReg_ne hn,
    a, ha, lookupAct_updateReg_self ha⟩

/-- Witness for C9: signing `x@mergington.edu` up for Chess Club keeps the
key list and the Art Club record, and only appends to Chess Club. -/
theorem signup_frame_witness :
    chessReg2.map Prod.fst = activities.map Prod.fst ∧
    lookupAct chessReg2 "Art Club" = lookupAct activities "Art Club" ∧
    lookupAct chessReg2 "Chess Club" =
      some (setParticipants chessClub (chessClub.participants ++ ["x@mergington.edu"])) := by
  have h := signup_frame activities chessReg2 "Chess Club" "x@mergington.edu"
    ("Signed up " ++ "x@mergington.edu" ++ " for " ++ "Chess Club") (by rfl)
  refine ⟨h.1, h.2.1 "Art Club" (by decide), ?_⟩
  obtain ⟨a, ha, hb⟩ := h.2.2
  have ha2 : a = chessClub := by
    have hcc : lookupAct activities "Chess Club" = some chessClub := by decide
    rw [ha] at hcc
    exact Option.some.inj hcc
  rw [ha2] at hb
  exact hb

/-- C10: signup does not validate the email value: with an existing,
non-full activity whose roster lacks the empty string, signing up the
empty-string email succeeds and appends `""` to the roster. -/
theorem signup_no_email_validation (reg : Registry) (n : String) (a : Activity)
    (ha : lookupAct reg n = some a) (he : "" ∉ a.participants)
    (hc : a.participants.length < a.max_participants) :
    signup_for_activity reg n "" =
      Except.ok (updateReg reg n (setParticipants a (a.participants ++ [""])),
        "Signed up " ++ "" ++ " for " ++ n) :=
  signup_ok_of ha he hc

/-- Witness for C10 at the seeded Chess Club. -/
theorem signup_no_email_validation_witness :
    signup_for_activity activities "Chess Club" "" =
      Except.ok (updateReg activities "Chess Club"
          (setParticipants chessClub (chessClub.participants ++ [""])),
        "Signed up " ++ "" ++ " for " ++ "Chess Club") :=
  signup_no_email_validation activities "Chess Club" chessClub
    (by decide) (by decide) (by decide)

end Mergington
